import Mathlib

/-!
Shallow embedding of the two scripts of this repository:
`scripts/seed-sprint-09.py` (sprint seeder) and
`scripts/update-master-context.py` (context updater), both operating on a
SQLite store with tables `sprints`, `missions`, `contexts`,
`context_snapshots`, and on the file `cmos/context/MASTER_CONTEXT.json`.

The store is modelled as lists of rows.  A run of a script is a function
from the committed store (plus an environment injecting storage faults and
the wall-clock readings of the run) to the committed store after the run,
the process exit code, the console output and the connection bookkeeping.
SQLite transaction semantics are modelled by building the new store from
the working copy and committing it only when every statement of the run
succeeded; on any error the committed store is the original one (the
scripts issue no explicit rollback, but they never commit after an error).
-/

namespace MissionProtocol

/-- A row of the `sprints` table. -/
structure SprintRow where
  id : String
  title : String
  focus : String
  status : String
  start_date : String
  end_date : String
  total_missions : Nat
  completed_missions : Nat
deriving DecidableEq, Repr

/-- A row of the `missions` table. -/
structure MissionRow where
  id : String
  sprint_id : String
  name : String
  status : String
  notes : String
deriving DecidableEq, Repr

/-- A row of the `contexts` table. -/
structure ContextRow where
  id : String
  source_path : String
  content : String
  updated_at : String
deriving DecidableEq, Repr

/-- A row of the `context_snapshots` table (the autogenerated integer id is
left implicit: it is the position in the list). -/
structure SnapshotRow where
  context_id : String
  session_id : String
  source : String
  content_hash : String
  content : String
  created_at : String
deriving DecidableEq, Repr

/-- The persistent store: the four tables of the SQLite database. -/
structure Store where
  sprints : List SprintRow
  missions : List MissionRow
  contexts : List ContextRow
  snapshots : List SnapshotRow
deriving DecidableEq, Repr

def emptyStore : Store := ⟨[], [], [], []⟩

/-- A UTC wall-clock reading, as used by `datetime.now(timezone.utc)`. -/
structure DT where
  year : Nat
  month : Nat
  day : Nat
  hour : Nat
  minute : Nat
  second : Nat
deriving DecidableEq, Repr

def pad2 (n : Nat) : String :=
  if n < 10 then "0" ++ toString n else toString n

def pad4 (n : Nat) : String :=
  if n < 10 then "000" ++ toString n
  else if n < 100 then "00" ++ toString n
  else if n < 1000 then "0" ++ toString n
  else toString n

/-- Format `datetime.strftime("%Y%m%d_%H%M%S")`: compact numeric timestamp. -/
def strftime_compact (t : DT) : String :=
  pad4 t.year ++ pad2 t.month ++ pad2 t.day ++ "_" ++
    pad2 t.hour ++ pad2 t.minute ++ pad2 t.second

/-- Format `datetime.isoformat()` on a whole-second UTC datetime. -/
def isoformat (t : DT) : String :=
  pad4 t.year ++ "-" ++ pad2 t.month ++ "-" ++ pad2 t.day ++ "T" ++
    pad2 t.hour ++ ":" ++ pad2 t.minute ++ ":" ++ pad2 t.second ++ "+00:00"

/-- A JSON value, as assembled in memory by the context updater. -/
inductive JValue where
  | str (s : String)
  | num (n : Int)
  | bool (b : Bool)
  | null
  | arr (elems : List JValue)
  | obj (members : List (String × JValue))

/-- JSON string escaping (`ensure_ascii=False`: non-ASCII kept verbatim). -/
def escapeChar (c : Char) : String :=
  if c = '\"' then "\\\""
  else if c = '\\' then "\\\\"
  else if c = '\n' then "\\n"
  else if c = '\t' then "\\t"
  else if c = '\r' then "\\r"
  else String.singleton c

def escapeString (s : String) : String :=
  "\"" ++ String.join (s.toList.map escapeChar) ++ "\""

def spaces (n : Nat) : String := String.mk (List.replicate n ' ')

mutual

/-- Serializer `json.dumps(v, indent=2, ensure_ascii=False)`, rendering a value whose
closing bracket sits at indentation `ind`. -/
def dumpsAt : Nat → JValue → String
  | _, .str s => escapeString s
  | _, .num n => toString n
  | _, .bool b => cond b "true" "false"
  | _, .null => "null"
  | _, .arr [] => "[]"
  | ind, .arr (x :: xs) =>
      "[\n" ++ dumpsElems (ind + 2) (x :: xs) ++ "\n" ++ spaces ind ++ "]"
  | _, .obj [] => "\x7b\x7d"
  | ind, .obj (m :: ms) =>
      "\x7b\n" ++ dumpsMembers (ind + 2) (m :: ms) ++ "\n" ++ spaces ind ++ "\x7d"

def dumpsElems : Nat → List JValue → String
  | _, [] => ""
  | ind, [x] => spaces ind ++ dumpsAt ind x
  | ind, x :: y :: xs =>
      spaces ind ++ dumpsAt ind x ++ ",\n" ++ dumpsElems ind (y :: xs)

def dumpsMembers : Nat → List (String × JValue) → String
  | _, [] => ""
  | ind, [(k, v)] => spaces ind ++ escapeString k ++ ": " ++ dumpsAt ind v
  | ind, (k, v) :: m :: ms =>
      spaces ind ++ escapeString k ++ ": " ++ dumpsAt ind v ++ ",\n" ++
        dumpsMembers ind (m :: ms)

end

/-- Serializer `json.dumps(v, indent=2, ensure_ascii=False)` at top level. -/
def dumps (v : JValue) : String := dumpsAt 0 v

/-! ## Sprint seeder data (`scripts/seed-sprint-09.py`) -/

/-- The hardcoded `sprint_data` dictionary of the seeder. -/
def sprint_data : SprintRow :=
  { id := "sprint-09"
    title := "CMOS Integration & Self-Containment"
    focus := "Make Mission Protocol work standalone with optional CMOS integration"
    status := "planning"
    start_date := "2025-11-08"
    end_date := "2025-11-29"
    total_missions := 8
    completed_missions := 0 }

/-- One element of the hardcoded `missions` list of the seeder (the `sprint_id`
field is supplied at insert time, not in the literal). -/
structure MissionSeed where
  id : String
  name : String
  status : String
  notes : String
deriving DecidableEq, Repr

/-- The hardcoded `missions` list of the seeder. -/
def missions : List MissionSeed :=
  [ { id := "s09-m01"
      name := "Phase 1: Update Default Paths to Project Root"
      status := "queued"
      notes := "Change DEFAULT_STATE_PATH from cmos/context/agentic_state.json to agentic_state.json. Change DEFAULT_SESSIONS_PATH from cmos/SESSIONS.jsonl to SESSIONS.jsonl. Update all path references in agentic-controller.ts. Move existing files from cmos/ to project root. Verify all tests pass." },
    { id := "s09-m02"
      name := "Phase 2: Test Standalone Operation Without cmos/"
      status := "queued"
      notes := "Hide cmos/ directory and verify all tests pass. Ensure Mission State Manager creates default files when they don\x27t exist. Test mission execution workflow. Verify graceful handling of missing cmos/ directory. Document any remaining hard dependencies." },
    { id := "s09-m03"
      name := "Phase 3: Create CMOS Detector Utility"
      status := "queued"
      notes := "Create src/intelligence/cmos-detector.ts. Implement runtime detection of cmos/ directory presence. Add detection of SQLite database availability. Create singleton pattern for detector. Add caching to avoid repeated file system checks. Write unit tests for detection logic." },
    { id := "s09-m04"
      name := "Phase 4: Integrate CMOS Detection into Agentic Controller"
      status := "queued"
      notes := "Add CMOS detector to AgenticController constructor. Log detection status on initialization. Add configuration options for CMOS integration. Update constructor options to accept detector instance. Write integration tests with and without cmos/." },
    { id := "s09-m05"
      name := "Phase 5: Create SQLite Client for CMOS (Optional)"
      status := "queued"
      notes := "Create src/intelligence/sqlite-client.ts. Implement basic CRUD operations for missions table. Add session event logging methods. Create TypeScript types for SQLite schema. Add connection pooling and error handling. Make this an optional dependency." },
    { id := "s09-m06"
      name := "Phase 6: Create CMOS Sync Service (Optional)"
      status := "queued"
      notes := "Create src/intelligence/cmos-sync.ts. Implement bidirectional sync between files and SQLite. Add session event sync from Mission Protocol to CMOS. Create context sync methods. Add configuration for sync direction and frequency. Implement graceful degradation if sync fails." },
    { id := "s09-m07"
      name := "Phase 7: Integrate Optional Sync into Mission Lifecycle"
      status := "queued"
      notes := "Add sync calls to mission start/complete methods. Sync session events after each mission event. Add sync configuration to agents.md playbook. Make sync failures non-blocking. Add telemetry for sync operations. Test with sync enabled and disabled." },
    { id := "s09-m08"
      name := "Phase 8: Documentation and Final Validation"
      status := "queued"
      notes := "Update agents.md with CMOS integration configuration. Document standalone vs CMOS-integrated modes. Create migration guide for existing projects. Update README.md with architecture explanation. Final validation: remove cmos/ and verify everything works. Performance testing with and without CMOS." } ]

/-! ## Execution model

`Env` injects storage faults: `connectOk` is whether `sqlite3.connect`
succeeds, and `execOk i` is whether the `i`-th `cursor.execute` of the run
succeeds at the engine level (a missing table, an unwritable store file and
similar engine faults all raise `sqlite3.Error`).  A statement can also
fail on its own because of a uniqueness-constraint violation, which is
computed from the store. -/

structure Env where
  connectOk : Bool
  execOk : Nat → Bool

/-- The fault-free environment. -/
def allOk : Env := ⟨true, fun _ => true⟩

inductive DBError where
  | unique (table : String)
  | engineFault
deriving DecidableEq, Repr

/-- The text interpolated for the exception in `print(f"❌ Database error: \x7be\x7d")`. -/
def errText : DBError → String
  | .unique tbl => "UNIQUE constraint failed: " ++ tbl ++ ".id"
  | .engineFault => "unable to open database file"

/-- The diagnostic line `❌ Database error: ...` printed by both scripts. -/
def dbErrorLine (e : DBError) : String := "❌ Database error: " ++ errText e

/-- Outcome of one script run: committed store, process exit code, console
output, and whether a connection was acquired / released. -/
structure RunResult where
  store : Store
  exitCode : Nat
  output : List String
  connOpened : Bool
  connClosed : Bool
deriving Repr

/-- Statement `INSERT INTO sprints ...` as statement number `i` of the run: fails on
an engine fault or on a duplicate primary key. -/
def insertSprint (env : Env) (i : Nat) (s : Store) (r : SprintRow) :
    Except DBError Store :=
  if env.execOk i = false then .error .engineFault
  else if s.sprints.any (fun x => x.id == r.id) then .error (.unique "sprints")
  else .ok { s with sprints := s.sprints ++ [r] }

/-- The mission row inserted for a seed entry: `sprint_id` is set to
`sprint_data["id"]`. -/
def mkMissionRow (m : MissionSeed) : MissionRow :=
  { id := m.id, sprint_id := sprint_data.id, name := m.name,
    status := m.status, notes := m.notes }

/-- Statement `INSERT INTO missions ...` as statement number `i` of the run. -/
def insertMission (env : Env) (i : Nat) (s : Store) (m : MissionSeed) :
    Except DBError Store :=
  if env.execOk i = false then .error .engineFault
  else if s.missions.any (fun x => x.id == m.id) then .error (.unique "missions")
  else .ok { s with missions := s.missions ++ [mkMissionRow m] }

/-- The `for mission in missions:` loop of the seeder, statements `i, i+1, ...`;
the first raised `sqlite3.Error` aborts the remaining inserts. -/
def insertMissions (env : Env) : Nat → Store → List MissionSeed →
    Except DBError Store
  | _, s, [] => .ok s
  | i, s, m :: ms =>
      match insertMission env i s m with
      | .error e => .error e
      | .ok s1 => insertMissions env (i + 1) s1 ms

/-- All statements of the transaction of the seeder, in source order: the sprint
insert followed by the eight mission inserts. -/
def seedStatements (env : Env) (s : Store) : Except DBError Store :=
  match insertSprint env 0 s sprint_data with
  | .error e => .error e
  | .ok s1 => insertMissions env 1 s1 missions

/-- Function `seed_sprint_09()`: connect, run the transaction, commit only on full
success; on `sqlite3.Error` print the diagnostic and `sys.exit(1)`; the
`finally` block closes the connection whenever one was acquired. -/
def seed_sprint_09 (env : Env) (s : Store) : RunResult :=
  if env.connectOk = false then
    { store := s, exitCode := 1, output := [dbErrorLine .engineFault],
      connOpened := false, connClosed := false }
  else
    match seedStatements env s with
    | .ok s1 =>
        { store := s1, exitCode := 0,
          output :=
            [ "✅ Successfully seeded Sprint " ++ sprint_data.id ++ ": " ++
                sprint_data.title,
              "✅ Inserted " ++ toString missions.length ++ " missions" ],
          connOpened := true, connClosed := true }
    | .error e =>
        { store := s, exitCode := 1, output := [dbErrorLine e],
          connOpened := true, connClosed := true }

/-! ## Context updater data (`scripts/update-master-context.py`) -/

/-- Constants `DB_PATH` and `MASTER_CONTEXT_PATH` as printed by `str(...)`. -/
def MASTER_CONTEXT_PATH : String := "cmos/context/MASTER_CONTEXT.json"

/-- The `context_data` dictionary assembled by
`create_master_context_update()`: a fully literal document. -/
def context_data : JValue :=
  .obj
    [ ("project", .obj
        [ ("name", .str "CMOS Starter Template"),
          ("version", .str "0.0.0"),
          ("description", .str "Updated with Mission Protocol CMOS integration analysis - Nov 2025"),
          ("status", .str "active_development"),
          ("start_date", .str "2025-11-07"),
          ("deployment", .obj
            [ ("platform", .str "Local/Node.js"),
              ("integration_target", .str "Mission Protocol v2 with optional CMOS support"),
              ("environment", .str "development") ]) ]),
      ("working_memory", .obj
        [ ("active_domain", .str "cmos_integration"),
          ("session_count", .num 1),
          ("last_session", .str "2025-11-07T22:30:00Z"),
          ("agents_md_path", .str "./agents.md"),
          ("agents_md_loaded", .bool true),
          ("active_mission", .str "cmos_integration_planning"),
          ("domains", .obj
            [ ("cmos_integration", .obj
                [ ("status", .str "analysis_complete"),
                  ("priority", .num 1),
                  ("current_mission", .str "sprint-09-planning"),
                  ("missions", .obj
                    [ ("sprint-09", .obj
                        [ ("id", .str "sprint-09"),
                          ("title", .str "CMOS Integration & Self-Containment"),
                          ("status", .str "planned"),
                          ("total_missions", .num 8),
                          ("focus", .str "Make Mission Protocol work standalone with optional CMOS integration") ]) ]),
                  ("critical_facts", .arr
                    [ .str "Mission Protocol must work standalone without cmos/ directory",
                      .str "CMOS is internal project management and will be removed before publishing",
                      .str "Integration must be optional and non-breaking",
                      .str "Default paths must move from cmos/ subdirectory to project root",
                      .str "CMOS detection must be runtime-based with graceful degradation" ]),
                  ("constraints", .arr
                    [ .str "Cannot assume cmos/ directory exists",
                      .str "All hardcoded cmos/ paths must be removed",
                      .str "Sync operations must be non-blocking",
                      .str "Must maintain backward compatibility",
                      .str "Performance impact must be < 2%" ]),
                  ("decisions_made", .arr
                    [ .str "Mission Protocol will use file-based storage by default (project root)",
                      .str "CMOS SQLite integration will be optional enhancement",
                      .str "Created 8-mission sprint to implement changes incrementally",
                      .str "Phased approach: self-containment → detection → optional sync",
                      .str "Dual-write strategy for migration period" ]),
                  ("files_created", .arr
                    [ .str "analysis/cmos-integration-gap-analysis.md",
                      .str "analysis/integration-architecture-plan.md",
                      .str "analysis/migration-path.md",
                      .str "scripts/seed-sprint-09.py" ]),
                  ("key_insights", .arr
                    [ .str "Original analysis incorrectly assumed tight coupling",
                      .str "Revised approach focuses on loose, optional integration",
                      .str "CMOS detection must not impact performance when absent",
                      .str "Sync service must be completely optional" ]) ]) ]) ]),
      ("technical_context", .obj
        [ ("dependencies", .arr
            [ .str "Node.js 18+",
              .str "TypeScript 5+",
              .str "Python 3.11+ (for CMOS only)",
              .str "SQLite 3+ (optional)" ]),
          ("tooling", .obj
            [ ("seed_database", .str "python scripts/seed_sqlite.py --data-root <path>"),
              ("validate_parity", .str "python scripts/validate_parity.py"),
              ("update_context", .str "python scripts/update-master-context.py") ]),
          ("reference_docs", .arr
            [ .str "analysis/cmos-integration-gap-analysis.md",
              .str "analysis/integration-architecture-plan.md",
              .str "analysis/migration-path.md" ]),
          ("integration_points", .arr
            [ .str "Optional CMOS detection in Mission Protocol",
              .str "Optional sync service for data sharing",
              .str "File-based storage with SQLite as secondary" ]) ]),
      ("sprint_tracking", .obj
        [ ("current_sprint", .str "sprint-09"),
          ("sprint_start", .str "2025-11-08"),
          ("sprint_end", .str "2025-11-29"),
          ("sprint_status", .str "planning") ]),
      ("context_health", .obj
        [ ("anti_pattern_detection", .bool true),
          ("compression_enabled", .bool false),
          ("last_reset", .str "2025-11-07T22:30:00Z"),
          ("sessions_since_reset", .num 1),
          ("size_kb", .num 0),
          ("size_limit_kb", .num 100) ]),
      ("ai_instructions", .obj
        [ ("preferred_language", .str "yaml"),
          ("code_style", .str "mission_protocol_v2"),
          ("testing_required", .bool true),
          ("documentation_level", .str "comprehensive"),
          ("special_instructions", .arr
            [ .str "Always check for cmos/ directory existence before assuming it\x27s present",
              .str "Use configurable paths instead of hardcoded cmos/ paths",
              .str "Implement graceful degradation for all CMOS-dependent features",
              .str "Maintain backward compatibility at all times",
              .str "Document optional vs required features clearly" ]) ]),
      ("next_session_context", .obj
        [ ("blockers", .arr []),
          ("important_reminders", .arr
            [ .str "Start with Phase 1 missions (s09-m01, s09-m02) to establish self-containment",
              .str "Verify all tests pass without cmos/ before proceeding to detection phase",
              .str "Keep sync service completely optional and non-blocking",
              .str "Update documentation after each phase" ]),
          ("key_reference_documents", .arr
            [ .str "analysis/cmos-integration-gap-analysis.md",
              .str "analysis/integration-architecture-plan.md",
              .str "analysis/migration-path.md" ]),
          ("when_we_resume", .arr
            [ .str "Begin implementation of s09-m01: Update default paths",
              .str "Test standalone operation after each change",
              .str "Create CMOS detector utility (s09-m03)",
              .str "Integrate detection into AgenticController (s09-m04)" ]) ]),
      ("metadata", .obj
        [ ("migrated_at", .str "2025-11-06T05:09:02.870476+00:00"),
          ("source_version", .str "cmos-v1"),
          ("last_updated", .str "2025-11-07T22:30:00Z"),
          ("session_summary", .str "Completed comprehensive analysis of Mission Protocol and CMOS integration. Created 3 analysis documents, 8-mission sprint plan, and seeded database. Established correct architecture: Mission Protocol standalone with optional CMOS integration.") ]) ]

/-- Statement `UPDATE contexts SET content = ?, updated_at = ? WHERE id = master_context`:
updates every row matching the predicate, leaving the others alone. -/
def updateMaster (s : Store) (doc : JValue) (t1 : DT) : Store :=
  { s with contexts := s.contexts.map (fun c =>
      if c.id == "master_context" then
        { c with content := dumps doc, updated_at := isoformat t1 }
      else c) }

/-- Statement `INSERT INTO contexts (id, source_path, content, updated_at) VALUES (...)`. -/
def insertMaster (s : Store) (doc : JValue) (t1 : DT) : Store :=
  { s with contexts := s.contexts ++
      [ { id := "master_context", source_path := MASTER_CONTEXT_PATH,
          content := dumps doc, updated_at := isoformat t1 } ] }

/-- The snapshot row inserted by `create_context_snapshot`: `t2` is the
`datetime.now` read used for the `content_hash` label and `t3` the one used
for `created_at`. -/
def snapRow (doc : JValue) (t2 t3 : DT) : SnapshotRow :=
  { context_id := "master_context",
    session_id := "session-2025-11-07-cmos-analysis",
    source := MASTER_CONTEXT_PATH,
    content_hash := "snapshot_" ++ strftime_compact t2,
    content := dumps doc,
    created_at := isoformat t3 }

/-- Statement `INSERT INTO context_snapshots ... VALUES (...)`. -/
def appendSnapshot (s : Store) (doc : JValue) (t2 t3 : DT) : Store :=
  { s with snapshots := s.snapshots ++ [snapRow doc t2 t3] }

/-- The statements of the transaction of `create_context_snapshot`, in source
order: the `SELECT` existence check (statement 0), the `UPDATE` or `INSERT`
on `contexts` (statement 1), and the snapshot `INSERT` (statement 2).
Returns the lines printed before the failure point together with the
transaction outcome; `t1` is the `datetime.now` read of the branch taken. -/
def contextStatements (env : Env) (s : Store) (doc : JValue) (t1 t2 t3 : DT) :
    List String × Except DBError Store :=
  if env.execOk 0 = false then ([], .error .engineFault)
  else if s.contexts.any (fun c => c.id == "master_context") then
    if env.execOk 1 = false then ([], .error .engineFault)
    else if env.execOk 2 = false then
      (["✅ Updated existing master_context record"], .error .engineFault)
    else
      (["✅ Updated existing master_context record",
        "✅ Created context snapshot in SQLite"],
       .ok (appendSnapshot (updateMaster s doc t1) doc t2 t3))
  else
    if env.execOk 1 = false then ([], .error .engineFault)
    else if env.execOk 2 = false then
      (["✅ Created new master_context record"], .error .engineFault)
    else
      (["✅ Created new master_context record",
        "✅ Created context snapshot in SQLite"],
       .ok (appendSnapshot (insertMaster s doc t1) doc t2 t3))

/-- Function `create_context_snapshot(context_data)`: connect, run the statements,
commit only on full success; on `sqlite3.Error` print the diagnostic and
`sys.exit(1)`; the `finally` block closes the connection whenever one was
acquired. -/
def create_context_snapshot (env : Env) (s : Store) (doc : JValue)
    (t1 t2 t3 : DT) : RunResult :=
  if env.connectOk = false then
    { store := s, exitCode := 1, output := [dbErrorLine .engineFault],
      connOpened := false, connClosed := false }
  else
    match contextStatements env s doc t1 t2 t3 with
    | (out, .ok s1) =>
        { store := s1, exitCode := 0, output := out,
          connOpened := true, connClosed := true }
    | (out, .error e) =>
        { store := s, exitCode := 1, output := out ++ [dbErrorLine e],
          connOpened := true, connClosed := true }

/-- Function `create_master_context_update()`: the serialized document the function
writes to `MASTER_CONTEXT.json` (and whose source dictionary it returns). -/
def create_master_context_update : String := dumps context_data

/-- Outcome of one run of the `__main__` block of `update-master-context.py`:
the file content written (if the write completed), plus the database run
outcome. -/
structure UpdaterResult where
  fileWritten : Option String
  store : Store
  exitCode : Nat
  output : List String
  connOpened : Bool
  connClosed : Bool
deriving Repr

/-- The `__main__` block of `update-master-context.py`: first
`create_master_context_update()` writes the file (`fileOk` is whether
`Path.write_text` completes; a raise there propagates unhandled and the
interpreter exits with status 1 before any database work), then
`create_context_snapshot(context_data)` synchronizes the store. -/
def updater_main (fileOk : Bool) (env : Env) (s : Store) (t1 t2 t3 : DT) :
    UpdaterResult :=
  if fileOk = false then
    { fileWritten := none, store := s, exitCode := 1,
      output := ["Updating MASTER_CONTEXT.json with session findings..."],
      connOpened := false, connClosed := false }
  else
    let r := create_context_snapshot env s context_data t1 t2 t3
    { fileWritten := some create_master_context_update,
      store := r.store, exitCode := r.exitCode,
      output :=
        ["Updating MASTER_CONTEXT.json with session findings...",
         "✅ Updated MASTER_CONTEXT.json at " ++ MASTER_CONTEXT_PATH] ++
          r.output,
      connOpened := r.connOpened, connClosed := r.connClosed }

/-! ## Derived predicates used by the claims -/

/-- Whether `needle` occurs as a contiguous substring of `hay` (on the
character lists). -/
def isPre : List Char → List Char → Bool
  | [], _ => true
  | _ :: _, [] => false
  | a :: as, b :: bs => a == b && isPre as bs

def hasSubAux (needle : List Char) : List Char → Bool
  | [] => isPre needle []
  | c :: cs => isPre needle (c :: cs) || hasSubAux needle cs

def hasSub (needle hay : String) : Bool :=
  hasSubAux needle.toList hay.toList

/-- Whether some printed line contains the (lowercase) word `error`; a line
containing it verbatim in particular contains it case-insensitively. -/
def mentionsError (out : List String) : Bool :=
  out.any (fun m => hasSub "error" m)

/-- Number of `contexts` rows whose id is the singleton key. -/
def countMaster (s : Store) : Nat :=
  s.contexts.countP (fun c => c.id == "master_context")

/-- Whether the store has a sprint row with the seeded identifier. -/
def hasSprint09 (s : Store) : Bool :=
  s.sprints.any (fun x => x.id == "sprint-09")

/-- Every mission row references an existing sprint row. -/
def noOrphans (s : Store) : Bool :=
  s.missions.all (fun m => s.sprints.any (fun r => r.id == m.sprint_id))

/-- The environment makes the three statements of `create_context_snapshot` and
the connection succeed. -/
def envSyncOk (env : Env) : Bool :=
  env.connectOk && env.execOk 0 && env.execOk 1 && env.execOk 2

/-- The committed store after one successful context-updater run. -/
def runStore (s : Store) (t1 t2 t3 : DT) : Store :=
  (create_context_snapshot allOk s context_data t1 t2 t3).store

/-- Iterate `n` successive successful context-updater runs, run `k` reading the
wall clock at `ts k`. -/
def iterRuns (ts : Nat → DT × DT × DT) (s : Store) : Nat → Store
  | 0 => s
  | n + 1 =>
      runStore (iterRuns ts s n) (ts n).1 (ts n).2.1 (ts n).2.2

/-- An environment whose `sqlite3.connect` call fails (e.g. the store file
is unreadable). -/
def badEnv : Env := ⟨false, fun _ => true⟩

/-- A concrete wall-clock reading used to instantiate theorems. -/
def dt0 : DT := ⟨2025, 11, 7, 22, 30, 0⟩

/-- A concrete store that already contains the seeded sprint row. -/
def seededOnce : Store := ⟨[sprint_data], [], [], []⟩

/-! ## Helper lemmas -/

theorem isPre_append (n : List Char) : ∀ s t : List Char,
    isPre n s = true → isPre n (s ++ t) = true := by
  induction n with
  | nil => intro s t _; rfl
  | cons a as ih =>
      intro s t h
      cases s with
      | nil => simp [isPre] at h
      | cons b bs =>
          simp only [isPre, Bool.and_eq_true] at h ⊢
          exact ⟨h.1, ih bs t h.2⟩

theorem hasSubAux_append (n : List Char) : ∀ h t : List Char,
    hasSubAux n h = true → hasSubAux n (h ++ t) = true := by
  intro h
  induction h with
  | nil =>
      intro t hh
      cases n with
      | nil => cases t with
        | nil => exact hh
        | cons c cs => simp [hasSubAux, isPre]
      | cons a as => simp [hasSubAux, isPre] at hh
  | cons c cs ih =>
      intro t hh
      simp only [hasSubAux, Bool.or_eq_true] at hh ⊢
      rcases hh with h1 | h2
      · exact Or.inl (isPre_append _ _ _ h1)
      · exact Or.inr (ih t h2)

/-- Every diagnostic line printed for a storage error contains the word
`error` (it sits in the fixed `❌ Database error: ` part of the line). -/
theorem hasSub_error_dbErrorLine (e : DBError) :
    hasSub "error" (dbErrorLine e) = true := by
  have hpre : hasSubAux ("error".toList) (("❌ Database error: ").toList) = true := by
    decide
  have hsplit : (dbErrorLine e).toList =
      ("❌ Database error: ").toList ++ (errText e).toList :=
    String.data_append "❌ Database error: " (errText e)
  rw [hasSub, hsplit]
  exact hasSubAux_append _ _ _ hpre

theorem mentionsError_of_last (pre : List String) (e : DBError) :
    mentionsError (pre ++ [dbErrorLine e]) = true := by
  simp only [mentionsError, List.any_append, List.any_cons, List.any_nil,
    Bool.or_eq_true]
  exact Or.inr (Or.inl (hasSub_error_dbErrorLine e))

theorem insertMission_ok (env : Env) (i : Nat) (s : Store) (m : MissionSeed)
    (s1 : Store) (h : insertMission env i s m = .ok s1) :
    s1 = { s with missions := s.missions ++ [mkMissionRow m] } := by
  unfold insertMission at h
  split at h
  · simp at h
  · split at h
    · simp at h
    · injection h with h
      exact h.symm

theorem insertSprint_ok (env : Env) (i : Nat) (s : Store) (r : SprintRow)
    (s1 : Store) (h : insertSprint env i s r = .ok s1) :
    s1 = { s with sprints := s.sprints ++ [r] } := by
  unfold insertSprint at h
  split at h
  · simp at h
  · split at h
    · simp at h
    · injection h with h
      exact h.symm

theorem insertMissions_ok_shape (env : Env) (ms : List MissionSeed) :
    ∀ (i : Nat) (s s1 : Store), insertMissions env i s ms = .ok s1 →
      s1.sprints = s.sprints ∧
      s1.missions = s.missions ++ ms.map mkMissionRow := by
  induction ms with
  | nil =>
      intro i s s1 h
      simp only [insertMissions] at h
      cases h
      simp
  | cons m ms ih =>
      intro i s s1 h
      rw [insertMissions] at h
      cases hins : insertMission env i s m with
      | error e => rw [hins] at h; cases h
      | ok s2 =>
          rw [hins] at h
          have hs2 := insertMission_ok env i s m s2 hins
          obtain ⟨ha, hb⟩ := ih (i + 1) s2 s1 h
          subst hs2
          refine ⟨ha, ?_⟩
          rw [hb]
          simp

theorem seedStatements_ok_shape (env : Env) (s s1 : Store)
    (h : seedStatements env s = .ok s1) :
    s1.sprints = s.sprints ++ [sprint_data] ∧
    s1.missions = s.missions ++ missions.map mkMissionRow := by
  rw [seedStatements] at h
  cases hins : insertSprint env 0 s sprint_data with
  | error e => rw [hins] at h; cases h
  | ok s2 =>
      rw [hins] at h
      have hs2 := insertSprint_ok env 0 s sprint_data s2 hins
      obtain ⟨ha, hb⟩ := insertMissions_ok_shape env missions 1 s2 s1 h
      subst hs2
      exact ⟨ha, hb⟩

theorem seedStatements_dup (env : Env) (s : Store)
    (h : hasSprint09 s = true) : ∃ e, seedStatements env s = .error e := by
  have hdup : s.sprints.any (fun x => x.id == sprint_data.id) = true := h
  rw [seedStatements]
  cases h1 : env.execOk 0 with
  | false => exact ⟨.engineFault, by simp [insertSprint, h1]⟩
  | true =>
      refine ⟨.unique "sprints", ?_⟩
      simp [insertSprint, h1, hdup]

theorem noOrphans_seed (env : Env) (s : Store) (h : noOrphans s = true) :
    noOrphans (seed_sprint_09 env s).store = true := by
  unfold seed_sprint_09
  cases hc : env.connectOk with
  | false => simpa using h
  | true =>
      simp only [Bool.true_eq_false, if_false]
      cases hst : seedStatements env s with
      | error e => simpa using h
      | ok s1 =>
          simp only []
          obtain ⟨hsp, hm⟩ := seedStatements_ok_shape env s s1 hst
          simp only [noOrphans, List.all_eq_true] at h ⊢
          intro m hmem
          rw [hm, List.mem_append] at hmem
          rw [hsp, List.any_append]
          rcases hmem with hold | hnew
          · have := h m hold
            simp [this]
          · obtain ⟨seed, _, rfl⟩ := List.mem_map.mp hnew
            simp [mkMissionRow]

theorem countMaster_updateMaster (s : Store) (doc : JValue) (t1 : DT) :
    countMaster (updateMaster s doc t1) = countMaster s := by
  simp only [countMaster, updateMaster]
  induction s.contexts with
  | nil => rfl
  | cons c cs ih =>
      simp only [List.map_cons, List.countP_cons, ih]
      cases hc : c.id == "master_context" with
      | true => simp [hc]
      | false => simp [hc]

theorem runStore_eq_update (s : Store) (t1 t2 t3 : DT)
    (hm : s.contexts.any (fun c => c.id == "master_context") = true) :
    runStore s t1 t2 t3 =
      appendSnapshot (updateMaster s context_data t1) context_data t2 t3 := by
  simp [runStore, create_context_snapshot, contextStatements, allOk, hm]

theorem runStore_eq_insert (s : Store) (t1 t2 t3 : DT)
    (hm : s.contexts.any (fun c => c.id == "master_context") = false) :
    runStore s t1 t2 t3 =
      appendSnapshot (insertMaster s context_data t1) context_data t2 t3 := by
  simp [runStore, create_context_snapshot, contextStatements, allOk, hm]

theorem countMaster_runStore (s : Store) (t1 t2 t3 : DT)
    (h : countMaster s ≤ 1) : countMaster (runStore s t1 t2 t3) = 1 := by
  cases hm : s.contexts.any (fun c => c.id == "master_context") with
  | true =>
      rw [runStore_eq_update s t1 t2 t3 hm]
      have hpos : 0 < countMaster s := by
        obtain ⟨c, hcmem, hcid⟩ := List.any_eq_true.mp hm
        exact List.countP_pos_iff.mpr ⟨c, hcmem, hcid⟩
      have hcnt : countMaster (appendSnapshot (updateMaster s context_data t1)
          context_data t2 t3) = countMaster s :=
        countMaster_updateMaster s context_data t1
      omega
  | false =>
      rw [runStore_eq_insert s t1 t2 t3 hm]
      have hzero : countMaster s = 0 := by
        simp only [countMaster, List.countP_eq_zero]
        intro c hcmem hcid
        have hany : s.contexts.any (fun c => c.id == "master_context") = true :=
          List.any_eq_true.mpr ⟨c, hcmem, hcid⟩
        rw [hm] at hany
        exact Bool.false_ne_true hany
      have hplus : countMaster (appendSnapshot (insertMaster s context_data t1)
          context_data t2 t3) = countMaster s + 1 := by
        simp only [countMaster, appendSnapshot, insertMaster, List.countP_append]
        simp [List.countP_cons]
      omega

theorem runStore_snapshots (s : Store) (t1 t2 t3 : DT) :
    (runStore s t1 t2 t3).snapshots =
      s.snapshots ++ [snapRow context_data t2 t3] := by
  cases hm : s.contexts.any (fun c => c.id == "master_context") with
  | true =>
      rw [runStore_eq_update s t1 t2 t3 hm]
      simp [appendSnapshot, updateMaster]
  | false =>
      rw [runStore_eq_insert s t1 t2 t3 hm]
      simp [appendSnapshot, insertMaster]

theorem iterRuns_snapshots (ts : Nat → DT × DT × DT) (s : Store) :
    ∀ n : Nat, ∃ tail : List SnapshotRow,
      (iterRuns ts s n).snapshots = s.snapshots ++ tail ∧ tail.length = n := by
  intro n
  induction n with
  | zero => exact ⟨[], by simp [iterRuns]⟩
  | succ n ih =>
      obtain ⟨tail, htl, hlen⟩ := ih
      refine ⟨tail ++ [snapRow context_data (ts n).2.1 (ts n).2.2], ?_, ?_⟩
      · rw [iterRuns, runStore_snapshots, htl, List.append_assoc]
      · simp [hlen]

theorem iterRuns_count (ts : Nat → DT × DT × DT) (s : Store)
    (h : countMaster s ≤ 1) :
    ∀ n : Nat, countMaster (iterRuns ts s (n + 1)) = 1 := by
  intro n
  induction n with
  | zero => exact countMaster_runStore s _ _ _ h
  | succ n ih =>
      have : countMaster (iterRuns ts s (n + 1)) ≤ 1 := le_of_eq ih
      exact countMaster_runStore _ _ _ _ this

theorem create_context_snapshot_err (env : Env) (s : Store) (doc : JValue)
    (t1 t2 t3 : DT) (out : List String) (e : DBError)
    (hc : env.connectOk = true)
    (hres : contextStatements env s doc t1 t2 t3 = (out, .error e)) :
    create_context_snapshot env s doc t1 t2 t3 =
      { store := s, exitCode := 1, output := out ++ [dbErrorLine e],
        connOpened := true, connClosed := true } := by
  simp [create_context_snapshot, hc, hres]

theorem create_context_snapshot_okres (env : Env) (s : Store) (doc : JValue)
    (t1 t2 t3 : DT) (out : List String) (s1 : Store)
    (hc : env.connectOk = true)
    (hres : contextStatements env s doc t1 t2 t3 = (out, .ok s1)) :
    create_context_snapshot env s doc t1 t2 t3 =
      { store := s1, exitCode := 0, output := out,
        connOpened := true, connClosed := true } := by
  simp [create_context_snapshot, hc, hres]

theorem seed_sprint_09_err (env : Env) (s : Store) (e : DBError)
    (hc : env.connectOk = true) (hres : seedStatements env s = .error e) :
    seed_sprint_09 env s =
      { store := s, exitCode := 1, output := [dbErrorLine e],
        connOpened := true, connClosed := true } := by
  simp [seed_sprint_09, hc, hres]

theorem create_context_snapshot_ok (env : Env) (s : Store) (doc : JValue)
    (t1 t2 t3 : DT) (hc : env.connectOk = true) (h0 : env.execOk 0 = true)
    (h1 : env.execOk 1 = true) (h2 : env.execOk 2 = true) :
    (create_context_snapshot env s doc t1 t2 t3).store.snapshots =
      s.snapshots ++ [snapRow doc t2 t3] ∧
    (create_context_snapshot env s doc t1 t2 t3).exitCode = 0 := by
  cases hm : s.contexts.any (fun c => c.id == "master_context") <;>
    simp [create_context_snapshot, contextStatements, hc, h0, h1, h2, hm,
      appendSnapshot, updateMaster, insertMaster]

/-! ## Claim theorems -/

/-- C1: for every store already containing the seeded sprint row, a further
seeder run fails on the duplicate sprint identifier with exit status 1 and
commits nothing — the store is exactly as before — and no run of the seeder
ever leaves a mission row without its owning sprint row. -/
theorem seeder_rerun_duplicate_aborts (env : Env) (s : Store)
    (h : hasSprint09 s = true) :
    (seed_sprint_09 env s).store = s ∧
    (seed_sprint_09 env s).exitCode = 1 ∧
    ∀ (env2 : Env) (s2 : Store), noOrphans s2 = true →
      noOrphans (seed_sprint_09 env2 s2).store = true := by
  have hrun : (seed_sprint_09 env s).store = s ∧
      (seed_sprint_09 env s).exitCode = 1 := by
    unfold seed_sprint_09
    cases hc : env.connectOk with
    | false => simp
    | true =>
        obtain ⟨e, he⟩ := seedStatements_dup env s h
        simp [he]
  exact ⟨hrun.1, hrun.2, fun env2 s2 h2 => noOrphans_seed env2 s2 h2⟩

/-- Witness for C1 at the fault-free environment and a concrete store that
contains the seeded sprint row. -/
theorem seeder_rerun_duplicate_aborts_witness :
    hasSprint09 seededOnce = true ∧
    (seed_sprint_09 allOk seededOnce).store = seededOnce ∧
    (seed_sprint_09 allOk seededOnce).exitCode = 1 := by
  refine ⟨by decide, ?_, ?_⟩
  · exact (seeder_rerun_duplicate_aborts allOk seededOnce (by decide)).1
  · exact (seeder_rerun_duplicate_aborts allOk seededOnce (by decide)).2.1

/-- C2: starting from any store whose `contexts` table satisfies the
primary-key constraint on the singleton identifier, after `n ≥ 1`
successful context-updater runs there is exactly one `contexts` row with id
`master_context`, the `context_snapshots` table has grown by exactly `n`
appended rows, and the pre-existing snapshot rows are untouched. -/
theorem updater_singleton_context_appends_snapshots
    (ts : Nat → DT × DT × DT) (s : Store) (n : Nat)
    (hn : 1 ≤ n) (h : countMaster s ≤ 1) :
    countMaster (iterRuns ts s n) = 1 ∧
    (iterRuns ts s n).snapshots.length = s.snapshots.length + n ∧
    ∃ tail, (iterRuns ts s n).snapshots = s.snapshots ++ tail := by
  obtain ⟨tail, htl, hlen⟩ := iterRuns_snapshots ts s n
  refine ⟨?_, ?_, ⟨tail, htl⟩⟩
  · obtain ⟨m, rfl⟩ := Nat.exists_eq_add_of_le hn
    have hcnt := iterRuns_count ts s h m
    simpa [Nat.add_comm] using hcnt
  · rw [htl]
    simp [hlen]

/-- Witness for C2: one run on the empty store. -/
theorem updater_singleton_context_appends_snapshots_witness :
    1 ≤ 1 ∧ countMaster emptyStore ≤ 1 ∧
    countMaster (iterRuns (fun _ => (dt0, dt0, dt0)) emptyStore 1) = 1 := by
  refine ⟨by decide, by decide, ?_⟩
  exact (updater_singleton_context_appends_snapshots
    (fun _ => (dt0, dt0, dt0)) emptyStore 1 (by decide) (by decide)).1

/-- C3: one seeder run on the empty store succeeds and inserts exactly one
sprint row (the `sprint-09` descriptor) and exactly eight mission rows, all
carrying `sprint_id = "sprint-09"`. -/
theorem seeder_once_inserts_sprint_and_eight_missions :
    (seed_sprint_09 allOk emptyStore).exitCode = 0 ∧
    (seed_sprint_09 allOk emptyStore).store.sprints = [sprint_data] ∧
    sprint_data.id = "sprint-09" ∧
    (seed_sprint_09 allOk emptyStore).store.missions.length = 8 ∧
    ((seed_sprint_09 allOk emptyStore).store.missions.all
      (fun m => m.sprint_id == "sprint-09")) = true := by
  decide

/-- C4: in every successful context-updater run, the content stored in the
snapshot row appended by that run is byte-for-byte the serialized document
written to `MASTER_CONTEXT.json` in the same run. -/
theorem snapshot_content_matches_file_content (env : Env) (s : Store)
    (t1 t2 t3 : DT) (h : envSyncOk env = true) :
    ∃ (c : String) (row : SnapshotRow),
      (updater_main true env s t1 t2 t3).fileWritten = some c ∧
      (updater_main true env s t1 t2 t3).store.snapshots =
        s.snapshots ++ [row] ∧
      row.content = c := by
  simp only [envSyncOk, Bool.and_eq_true] at h
  obtain ⟨⟨⟨hc, h0⟩, h1⟩, h2⟩ := h
  refine ⟨dumps context_data, snapRow context_data t2 t3, rfl, ?_, rfl⟩
  exact (create_context_snapshot_ok env s context_data t1 t2 t3 hc h0 h1 h2).1

/-- Witness for C4: a fault-free run on the empty store. -/
theorem snapshot_content_matches_file_content_witness :
    envSyncOk allOk = true ∧
    ∃ (c : String) (row : SnapshotRow),
      (updater_main true allOk emptyStore dt0 dt0 dt0).fileWritten = some c ∧
      (updater_main true allOk emptyStore dt0 dt0 dt0).store.snapshots =
        emptyStore.snapshots ++ [row] ∧
      row.content = c := by
  exact ⟨by decide,
    snapshot_content_matches_file_content allOk emptyStore dt0 dt0 dt0 (by decide)⟩

/-- C5: the store-synchronization phase of the context updater is transactional:
either the run succeeds and the committed store is exactly the fully
updated one (the fault-free outcome), or some statement fails, in which
case nothing is committed, the error is reported on the console and the
process exits with status 1. -/
theorem context_sync_transaction_all_or_nothing (env : Env) (s : Store)
    (doc : JValue) (t1 t2 t3 : DT) :
    ((create_context_snapshot env s doc t1 t2 t3).exitCode = 0 ∧
      (create_context_snapshot env s doc t1 t2 t3).store =
        (create_context_snapshot allOk s doc t1 t2 t3).store) ∨
    ((create_context_snapshot env s doc t1 t2 t3).exitCode = 1 ∧
      (create_context_snapshot env s doc t1 t2 t3).store = s ∧
      mentionsError (create_context_snapshot env s doc t1 t2 t3).output = true) := by
  cases hc : env.connectOk with
  | false =>
      right
      refine ⟨?_, ?_, ?_⟩ <;> simp [create_context_snapshot, hc]
      all_goals decide
  | true =>
      cases h0 : env.execOk 0 with
      | false =>
          right
          refine ⟨?_, ?_, ?_⟩ <;>
            simp [create_context_snapshot, contextStatements, hc, h0]
          all_goals decide
      | true =>
          cases hm : s.contexts.any (fun c => c.id == "master_context") with
          | true =>
              cases h1 : env.execOk 1 with
              | false =>
                  right
                  refine ⟨?_, ?_, ?_⟩ <;>
                    simp [create_context_snapshot, contextStatements, hc, h0, hm, h1]
                  all_goals decide
              | true =>
                  cases h2 : env.execOk 2 with
                  | false =>
                      right
                      refine ⟨?_, ?_, ?_⟩ <;>
                        simp [create_context_snapshot, contextStatements,
                          hc, h0, hm, h1, h2]
                      all_goals decide
                  | true =>
                      left
                      refine ⟨?_, ?_⟩ <;>
                        simp [create_context_snapshot, contextStatements,
                          allOk, hc, h0, hm, h1, h2]
          | false =>
              cases h1 : env.execOk 1 with
              | false =>
                  right
                  refine ⟨?_, ?_, ?_⟩ <;>
                    simp [create_context_snapshot, contextStatements, hc, h0, hm, h1]
                  all_goals decide
              | true =>
                  cases h2 : env.execOk 2 with
                  | false =>
                      right
                      refine ⟨?_, ?_, ?_⟩ <;>
                        simp [create_context_snapshot, contextStatements,
                          hc, h0, hm, h1, h2]
                      all_goals decide
                  | true =>
                      left
                      refine ⟨?_, ?_⟩ <;>
                        simp [create_context_snapshot, contextStatements,
                          allOk, hc, h0, hm, h1, h2]

/-- C6: any storage error in the database work of either script is reported with
a diagnostic containing the word `error` and makes the process exit with a
non-zero status, while a fully successful run exits with status 0. -/
theorem storage_errors_diagnosed_and_success_exits_zero :
    (∀ (env : Env) (s : Store), (seed_sprint_09 env s).exitCode ≠ 0 →
        mentionsError (seed_sprint_09 env s).output = true) ∧
    (∀ (env : Env) (s s1 : Store), env.connectOk = true →
        seedStatements env s = .ok s1 →
        (seed_sprint_09 env s).exitCode = 0) ∧
    (∀ (env : Env) (s : Store) (doc : JValue) (t1 t2 t3 : DT),
        (create_context_snapshot env s doc t1 t2 t3).exitCode ≠ 0 →
        mentionsError (create_context_snapshot env s doc t1 t2 t3).output = true) ∧
    (∀ (env : Env) (s : Store) (doc : JValue) (t1 t2 t3 : DT)
        (out : List String) (s1 : Store), env.connectOk = true →
        contextStatements env s doc t1 t2 t3 = (out, .ok s1) →
        (create_context_snapshot env s doc t1 t2 t3).exitCode = 0) := by
  refine ⟨?_, ?_, ?_, ?_⟩
  · intro env s hne
    cases hc : env.connectOk with
    | false =>
        have hred : (seed_sprint_09 env s).output = [dbErrorLine .engineFault] := by
          simp [seed_sprint_09, hc]
        rw [hred]
        simpa using mentionsError_of_last [] DBError.engineFault
    | true =>
        cases hst : seedStatements env s with
        | ok s1 =>
            have hzero : (seed_sprint_09 env s).exitCode = 0 := by
              simp [seed_sprint_09, hc, hst]
            exact absurd hzero hne
        | error e =>
            rw [seed_sprint_09_err env s e hc hst]
            simpa using mentionsError_of_last [] e
  · intro env s s1 hc hok
    simp [seed_sprint_09, hc, hok]
  · intro env s doc t1 t2 t3 hne
    cases hc : env.connectOk with
    | false =>
        have hred : (create_context_snapshot env s doc t1 t2 t3).output =
            [dbErrorLine .engineFault] := by
          simp [create_context_snapshot, hc]
        rw [hred]
        simpa using mentionsError_of_last [] DBError.engineFault
    | true =>
        rcases hres : contextStatements env s doc t1 t2 t3 with ⟨out, ex⟩
        cases ex with
        | ok s1 =>
            have hzero : (create_context_snapshot env s doc t1 t2 t3).exitCode = 0 := by
              rw [create_context_snapshot_okres env s doc t1 t2 t3 out s1 hc hres]
            exact absurd hzero hne
        | error e =>
            rw [create_context_snapshot_err env s doc t1 t2 t3 out e hc hres]
            exact mentionsError_of_last out e
  · intro env s doc t1 t2 t3 out s1 hc heq
    rw [create_context_snapshot_okres env s doc t1 t2 t3 out s1 hc heq]

/-- Witness for C6: a run with a failing connection (diagnostic printed,
non-zero exit) and a fault-free run (exit 0), for each script. -/
theorem storage_errors_diagnosed_and_success_exits_zero_witness :
    (seed_sprint_09 badEnv emptyStore).exitCode ≠ 0 ∧
    mentionsError (seed_sprint_09 badEnv emptyStore).output = true ∧
    (seed_sprint_09 allOk emptyStore).exitCode = 0 ∧
    (create_context_snapshot badEnv emptyStore context_data dt0 dt0 dt0).exitCode ≠ 0 ∧
    mentionsError (create_context_snapshot badEnv emptyStore context_data dt0 dt0 dt0).output = true ∧
    (create_context_snapshot allOk emptyStore context_data dt0 dt0 dt0).exitCode = 0 := by
  refine ⟨by decide, ?_, ?_, by decide, ?_, ?_⟩
  · exact storage_errors_diagnosed_and_success_exits_zero.1 badEnv emptyStore
      (by decide)
  · exact storage_errors_diagnosed_and_success_exits_zero.2.1 allOk emptyStore
      (seed_sprint_09 allOk emptyStore).store rfl rfl
  · exact storage_errors_diagnosed_and_success_exits_zero.2.2.1 badEnv
      emptyStore context_data dt0 dt0 dt0 (by decide)
  · exact storage_errors_diagnosed_and_success_exits_zero.2.2.2 allOk
      emptyStore context_data dt0 dt0 dt0
      ["✅ Created new master_context record",
       "✅ Created context snapshot in SQLite"]
      (appendSnapshot (insertMaster emptyStore context_data dt0) context_data dt0 dt0)
      rfl rfl

/-- C7: on every execution path of either script — success, statement
failure, or failure of the connection-open step itself — a database
connection that was acquired is released before the process exits. -/
theorem connection_always_released (env : Env) (s : Store) (fileOk : Bool)
    (t1 t2 t3 : DT) :
    ((seed_sprint_09 env s).connOpened = true →
      (seed_sprint_09 env s).connClosed = true) ∧
    ((create_context_snapshot env s context_data t1 t2 t3).connOpened = true →
      (create_context_snapshot env s context_data t1 t2 t3).connClosed = true) ∧
    ((updater_main fileOk env s t1 t2 t3).connOpened = true →
      (updater_main fileOk env s t1 t2 t3).connClosed = true) := by
  have hseed : (seed_sprint_09 env s).connClosed =
      (seed_sprint_09 env s).connOpened := by
    unfold seed_sprint_09
    cases hc : env.connectOk with
    | false => simp
    | true => cases hst : seedStatements env s <;> simp [hst]
  have hsnap : ∀ (env2 : Env) (s2 : Store) (u1 u2 u3 : DT),
      (create_context_snapshot env2 s2 context_data u1 u2 u3).connClosed =
        (create_context_snapshot env2 s2 context_data u1 u2 u3).connOpened := by
    intro env2 s2 u1 u2 u3
    unfold create_context_snapshot
    cases hc : env2.connectOk with
    | false => simp
    | true =>
        rcases hres : contextStatements env2 s2 context_data u1 u2 u3 with ⟨out, ex⟩
        cases ex <;> simp [hres]
  have hmain : (updater_main fileOk env s t1 t2 t3).connClosed =
      (updater_main fileOk env s t1 t2 t3).connOpened := by
    cases fileOk with
    | false => simp [updater_main]
    | true =>
        show (create_context_snapshot env s context_data t1 t2 t3).connClosed =
          (create_context_snapshot env s context_data t1 t2 t3).connOpened
        exact hsnap env s t1 t2 t3

  exact ⟨fun h => hseed.trans h, fun h => (hsnap env s t1 t2 t3).trans h,
    fun h => hmain.trans h⟩

/-- Witness for C7: fault-free runs of both scripts acquire a connection
and release it. -/
theorem connection_always_released_witness :
    (seed_sprint_09 allOk emptyStore).connOpened = true ∧
    (seed_sprint_09 allOk emptyStore).connClosed = true ∧
    (updater_main true allOk emptyStore dt0 dt0 dt0).connOpened = true ∧
    (updater_main true allOk emptyStore dt0 dt0 dt0).connClosed = true := by
  refine ⟨rfl, ?_, rfl, ?_⟩
  · exact (connection_always_released allOk emptyStore true dt0 dt0 dt0).1 rfl
  · exact (connection_always_released allOk emptyStore true dt0 dt0 dt0).2.2 rfl

/-- C8: the snapshot row appended by a successful context-updater run has
`content_hash` equal to the fixed prefix `snapshot_` followed by the compact
UTC timestamp of the run, `%Y%m%d_%H%M%S`, independent of the document
content. -/
theorem snapshot_hash_is_timestamp_label (env : Env) (s : Store)
    (doc : JValue) (t1 t2 t3 : DT) (h : envSyncOk env = true) :
    (create_context_snapshot env s doc t1 t2 t3).store.snapshots =
      s.snapshots ++ [snapRow doc t2 t3] ∧
    (snapRow doc t2 t3).content_hash = "snapshot_" ++ strftime_compact t2 ∧
    ∀ doc2 : JValue,
      (snapRow doc2 t2 t3).content_hash = (snapRow doc t2 t3).content_hash := by
  simp only [envSyncOk, Bool.and_eq_true] at h
  obtain ⟨⟨⟨hc, h0⟩, h1⟩, h2⟩ := h
  exact ⟨(create_context_snapshot_ok env s doc t1 t2 t3 hc h0 h1 h2).1,
    rfl, fun doc2 => rfl⟩

/-- Witness for C8: a fault-free run on the empty store at a concrete
timestamp. -/
theorem snapshot_hash_is_timestamp_label_witness :
    envSyncOk allOk = true ∧
    (snapRow context_data dt0 dt0).content_hash =
      "snapshot_" ++ strftime_compact dt0 :=
  ⟨by decide, (snapshot_hash_is_timestamp_label allOk emptyStore context_data
    dt0 dt0 dt0 (by decide)).2.1⟩

/-- C9: the serialized context document is a constant built from literals:
every run (for any store, fault environment and wall-clock readings) writes
the same serialization of `context_data` to the target file, and any two
runs write identical content. -/
theorem context_document_is_constant (env env2 : Env) (s s2 : Store)
    (t1 t2 t3 u1 u2 u3 : DT) :
    (updater_main true env s t1 t2 t3).fileWritten =
      some (dumps context_data) ∧
    (updater_main true env s t1 t2 t3).fileWritten =
      (updater_main true env2 s2 u1 u2 u3).fileWritten :=
  ⟨rfl, rfl⟩

/-- C10: if the file write fails, the fault propagates unhandled: the
process exits non-zero, no database connection is ever opened in that run
and the store is exactly as before. -/
theorem file_write_failure_leaves_store_untouched (env : Env) (s : Store)
    (t1 t2 t3 : DT) :
    (updater_main false env s t1 t2 t3).fileWritten = none ∧
    (updater_main false env s t1 t2 t3).store = s ∧
    (updater_main false env s t1 t2 t3).exitCode = 1 ∧
    (updater_main false env s t1 t2 t3).connOpened = false :=
  ⟨rfl, rfl, rfl, rfl⟩

end MissionProtocol
